import Mathlib

/-!
# Verification of the trading-engine utilities

Shallow embedding of the pure calculation library in
`src/frontend/src/pages/PaperTrading.jsx` (the `marketStatus` and
`riskManagement` object literals) and of `detectMarketStatus` from the
Dashboard page.

Modelling conventions:
* JavaScript numbers are modelled as exact rationals (`ℚ`); all inputs in
  the properties below are far from any floating-point comparison boundary.
* JavaScript number truthiness: a number is falsy exactly when it is `0`
  (`NaN` is outside the rational model).
* The session functions read `new Date()` and convert to IST; we embed them
  as functions of the extracted IST fields `(day, hours, minutes)`, where
  `day` follows JavaScript `Date.getDay()` (0 = Sunday … 6 = Saturday).
* `calculatePnL` and `assessRisk` are arrow functions stored in the object
  literal `riskManagement`. An arrow function captures the lexical `this`,
  which at the top level of an ES module is `undefined`. Hence the
  subexpressions `this.calculatePositionSize(...)` (in `calculatePnL`) and
  `this.calculateRiskReward(...)` (in `assessRisk`) throw a `TypeError`
  (property access on `undefined`) whenever they are evaluated. We model a
  JavaScript computation that may throw with `JsOutcome`.
-/

/-- A JavaScript runtime error. The only one arising in this code is the
`TypeError` from reading a property of `undefined` (`this` inside the arrow
functions of the `riskManagement` object literal). -/
inductive JsError where
  | typeError
deriving DecidableEq, Repr

/-- Result of a JavaScript computation: either a value or a thrown error. -/
inductive JsOutcome (α : Type) where
  | thrown (e : JsError)
  | value (a : α)
deriving DecidableEq, Repr

/-- One P&L scenario object, as pushed onto `scenarios` in `calculatePnL`. -/
structure Scenario where
  name : String
  price : ℚ
  quantity : ℚ
  totalValue : ℚ
  pnl : ℚ
  pnlPercent : ℚ
  type : String
deriving DecidableEq, Repr

/-- The result object of `riskManagement.calculatePnL`. JavaScript objects
simply omit absent properties; we model every property that appears in
either the invalid or the valid result as an `Option` field defaulting to
`none`. The invalid (`RISK_TOO_HIGH`) result sets only `valid`, `error`
and `message`; in particular it carries no `scenarios` list. -/
structure PnLResult where
  valid : Bool
  error : Option String := none
  message : Option String := none
  capital : Option ℚ := none
  position : Option ℚ := none
  entryPrice : Option ℚ := none
  stopLoss : Option ℚ := none
  maxRisk : Option ℚ := none
  riskAmount : Option ℚ := none
  riskPercent : Option ℚ := none
  scenarios : Option (List Scenario) := none
deriving DecidableEq, Repr

/-- The result object of `riskManagement.assessRisk`. -/
structure RiskWarnings where
  warnings : List String
  recommendations : List String
deriving DecidableEq, Repr

/-- `riskManagement.calculatePositionSize(capital, entryPrice, stopLoss)`.

Source:
`if (!capital || !entryPrice || !stopLoss) return 0;`
`const maxRisk = capital * 0.01;`
`const riskPerShare = Math.abs(entryPrice - stopLoss);`
`if (riskPerShare === 0) return 0;`
`return Math.floor(maxRisk / riskPerShare);`
`Math.floor` of a rational is `Int.floor`. -/
def calculatePositionSize (capital entryPrice stopLoss : ℚ) : ℤ :=
  if capital = 0 ∨ entryPrice = 0 ∨ stopLoss = 0 then 0
  else
    let maxRisk := capital * (1/100)
    let riskPerShare := |entryPrice - stopLoss|
    if riskPerShare = 0 then 0
    else ⌊maxRisk / riskPerShare⌋

/-- The human-readable `RISK_TOO_HIGH` message. The source interpolates
`riskAmount.toFixed(0)`, `riskPercent.toFixed(2)` and `maxRisk.toFixed(0)`;
we keep the exact rationals in place of the fixed-point renderings (no
claim inspects the digits, only that a message is present). -/
def riskMessage (riskAmount riskPercent maxRisk : ℚ) : String :=
  "Position size would risk ₹" ++ toString riskAmount ++ " (" ++
    toString riskPercent ++ "%) - Max allowed: ₹" ++ toString maxRisk ++ " (1%)"

/-- `riskManagement.calculatePnL(capital, entryPrice, targets, stopLoss, quantity = null)`.

Source walkthrough:
* `if (!capital || !entryPrice || !stopLoss) return null;` — modelled as
  `JsOutcome.value none`.
* `const position = quantity || this.calculatePositionSize(...)` — when
  `quantity` is falsy (`null` default or `0`), the right operand of `||` is
  evaluated: `this` is `undefined` (arrow function in a module), so the
  property read throws — modelled as `JsOutcome.thrown .typeError`.
* the validity gate `riskAmount > maxRisk * 1.1` returns the invalid
  object `{valid: false, error: "RISK_TOO_HIGH", message}`.
* otherwise the scenario list is built: the stop-loss scenario is pushed
  first; then `targets.forEach((target, idx) => ...)` pushes, for each
  truthy `target` with `target > entryPrice`, a profit scenario named
  `"Target " + (idx + 1)` (run only when `Array.isArray(targets)`,
  i.e. `targets = some ts`). -/
def calculatePnL (capital entryPrice : ℚ) (targets : Option (List ℚ))
    (stopLoss : ℚ) (quantity : Option ℚ) : JsOutcome (Option PnLResult) :=
  if capital = 0 ∨ entryPrice = 0 ∨ stopLoss = 0 then JsOutcome.value none
  else
    let maxRisk := capital * (1/100)
    let positionOpt : Option ℚ :=
      match quantity with
      | some q => if q = 0 then none else some q
      | none => none
    match positionOpt with
    | none => JsOutcome.thrown JsError.typeError
    | some position =>
      let riskAmount := |position * (entryPrice - stopLoss)|
      let riskPercent := riskAmount / capital * 100
      if maxRisk * (11/10) < riskAmount then
        JsOutcome.value (some
          { valid := false
            error := some "RISK_TOO_HIGH"
            message := some (riskMessage riskAmount riskPercent maxRisk) })
      else
        let lossScenario : Scenario :=
          { name := "Worst Case (Stop Loss)"
            price := stopLoss
            quantity := position
            totalValue := position * stopLoss
            pnl := position * (stopLoss - entryPrice)
            pnlPercent := (stopLoss - entryPrice) / entryPrice * 100
            type := "loss" }
        let targetScenarios : List Scenario :=
          match targets with
          | some ts =>
            ts.enum.filterMap fun p =>
              if p.2 ≠ 0 ∧ entryPrice < p.2 then
                some { name := "Target " ++ toString (p.1 + 1)
                       price := p.2
                       quantity := position
                       totalValue := position * p.2
                       pnl := position * (p.2 - entryPrice)
                       pnlPercent := (p.2 - entryPrice) / entryPrice * 100
                       type := "profit" }
              else none
          | none => []
        JsOutcome.value (some
          { valid := true
            capital := some capital
            position := some position
            entryPrice := some entryPrice
            stopLoss := some stopLoss
            maxRisk := some maxRisk
            riskAmount := some riskAmount
            riskPercent := some riskPercent
            scenarios := some (lossScenario :: targetScenarios) })

/-- Extracts the scenario list from a `calculatePnL` outcome, when the call
returned a non-null result that carries one. -/
def scenariosOf (r : JsOutcome (Option PnLResult)) : Option (List Scenario) :=
  match r with
  | JsOutcome.value (some res) => res.scenarios
  | _ => none

/-- `riskManagement.estimateWinProbability(rsi, volumeTrend, trend)`.

Source: start at 50; `+15` if `rsi < 30` else `-15` if `rsi > 70`; `+10`
if `trend === "UPTREND"` else `-10` if `"DOWNTREND"`; `+8` if
`volumeTrend === "INCREASING"` else `-8` if `"DECREASING"`; finally
`Math.min(Math.max(probability, 20), 80)`. -/
def estimateWinProbability (rsi : ℚ) (volumeTrend trend : String) : ℚ :=
  let p0 : ℚ := 50
  let p1 := if rsi < 30 then p0 + 15 else if 70 < rsi then p0 - 15 else p0
  let p2 := if trend = "UPTREND" then p1 + 10
            else if trend = "DOWNTREND" then p1 - 10 else p1
  let p3 := if volumeTrend = "INCREASING" then p2 + 8
            else if volumeTrend = "DECREASING" then p2 - 8 else p2
  min (max p3 20) 80

/-- `riskManagement.assessRisk(capital, entryPrice, stopLoss, targets)`.

Source: `riskPercent = Math.abs((entryPrice - stopLoss) / entryPrice) * 100`;
push the `>5%` warning/recommendation, then the `<0.5%` pair; then
`if (targets && targets[0])` call `this.calculateRiskReward(...)` — an
array (`targets = some ts`) is always truthy, `targets[0]` is truthy when
the list has a non-zero head, and the `this` property read then throws
(arrow function in a module), discarding the warnings pushed so far.
`capital` is accepted but never read. `targets = none` models a missing /
non-array argument. -/
def assessRisk (capital entryPrice stopLoss : ℚ) (targets : Option (List ℚ)) :
    JsOutcome RiskWarnings :=
  let riskPercent := |(entryPrice - stopLoss) / entryPrice| * 100
  let highRisk := 5 < riskPercent
  let tightStop := riskPercent < 1/2
  let warnings :=
    (if highRisk then ["⚠️ HIGH RISK: Stop loss is more than 5% away from entry"] else []) ++
    (if tightStop then ["⚠️ TIGHT STOP: Stop loss is too close (< 0.5%)"] else [])
  let recommendations :=
    (if highRisk then ["Consider tightening stop loss or reducing position size"] else []) ++
    (if tightStop then ["May get stopped out too easily - consider widening"] else [])
  match targets with
  | some ts =>
    if ts.headD 0 ≠ 0 then JsOutcome.thrown JsError.typeError
    else JsOutcome.value { warnings := warnings, recommendations := recommendations }
  | none => JsOutcome.value { warnings := warnings, recommendations := recommendations }

/-- `marketStatus.isMarketOpen()`, as a function of the IST wall-clock
fields it extracts (`day` = `getDay()`, `hours`, `minutes`).

Source: `isWeekday = day >= 1 && day <= 5`;
`isWithinHours = (hours === 9 && minutes >= 15) || (hours > 9 && hours < 15)
|| (hours === 15 && minutes <= 30)`; returns their conjunction. It consults
no holiday list. -/
def isMarketOpen (day hours minutes : ℕ) : Bool :=
  let isWeekday := 1 ≤ day ∧ day ≤ 5
  let isWithinHours :=
    (hours = 9 ∧ 15 ≤ minutes) ∨ (9 < hours ∧ hours < 15) ∨ (hours = 15 ∧ minutes ≤ 30)
  decide isWeekday && decide isWithinHours

/-- The `status` field of the records returned by
`marketStatus.getMarketStatus`. -/
inductive MarketSession where
  | PRE_MARKET
  | OPENING
  | MID_DAY
  | CLOSING
  | CLOSED
deriving DecidableEq, Repr

/-- The record returned by `marketStatus.getMarketStatus`. -/
structure MarketStatusInfo where
  status : MarketSession
  label : String
  color : String
deriving DecidableEq, Repr

/-- `marketStatus.getMarketStatus()`, as a function of the IST wall-clock
fields. The guard chain is translated branch for branch; note the original
closing-session test `(hours === 15 && minutes <= 30) || (hours === 15 &&
minutes < 60)`, whose second disjunct subsumes the first for any real
minute value. -/
def getMarketStatus (day hours minutes : ℕ) : MarketStatusInfo :=
  if ¬ (1 ≤ day ∧ day ≤ 5) then
    ⟨MarketSession.CLOSED, "Market Closed (Weekend)", "bg-gray-100"⟩
  else if hours < 9 ∨ (hours = 9 ∧ minutes < 15) then
    ⟨MarketSession.PRE_MARKET, "Pre-Market (Before 9:15 AM)", "bg-blue-100"⟩
  else if hours = 9 ∧ 15 ≤ minutes then
    ⟨MarketSession.OPENING, "Opening Session (9:15-12:00)", "bg-orange-100"⟩
  else if 10 ≤ hours ∧ hours < 12 then
    ⟨MarketSession.OPENING, "Opening Session (9:15-12:00)", "bg-orange-100"⟩
  else if 12 ≤ hours ∧ hours < 15 then
    ⟨MarketSession.MID_DAY, "Mid-Day Session (12:00-3:30 PM)", "bg-blue-100"⟩
  else if (hours = 15 ∧ minutes ≤ 30) ∨ (hours = 15 ∧ minutes < 60) then
    ⟨MarketSession.CLOSING, "Closing Session (3:00-3:30 PM)", "bg-red-100"⟩
  else
    ⟨MarketSession.CLOSED, "Market Closed", "bg-gray-100"⟩

/-- The configured holiday date list of `detectMarketStatus`
(Dashboard page, `src/unnamed/part_003`). -/
def holidays : List String :=
  ["2026-01-26", "2026-03-25", "2026-04-14", "2026-08-15",
   "2026-09-02", "2026-10-02", "2026-10-25", "2026-12-25"]

/-- The status string set by `detectMarketStatus`. -/
inductive DashboardStatus where
  | HOLIDAY
  | OPEN
  | CLOSED
deriving DecidableEq, Repr

/-- `detectMarketStatus` from the Dashboard page (`src/unnamed/part_003`),
as a function of the wall-clock fields it extracts: `today` is the
`YYYY-MM-DD` date string, plus `getDay()/getHours()/getMinutes()`.

Source: `isWeekday = dayOfWeek > 0 && dayOfWeek < 6`; `isMarketHours =
(hours > 9 || (hours === 9 && minutes >= 15)) && (hours < 15 ||
(hours === 15 && minutes <= 30))`; a listed holiday date yields `HOLIDAY`
regardless of weekday and hour; else `OPEN` on a weekday within hours;
else `CLOSED`. -/
def detectMarketStatus (today : String) (dayOfWeek hours minutes : ℕ) :
    DashboardStatus :=
  let isWeekday := 0 < dayOfWeek ∧ dayOfWeek < 6
  let isMarketHours :=
    (9 < hours ∨ (hours = 9 ∧ 15 ≤ minutes)) ∧
    (hours < 15 ∨ (hours = 15 ∧ minutes ≤ 30))
  if holidays.contains today then DashboardStatus.HOLIDAY
  else if isWeekday ∧ isMarketHours then DashboardStatus.OPEN
  else DashboardStatus.CLOSED

/-- The stop-loss scenario described by spec step 5 of
`PnLScenarioModeler.evaluate`: type `loss`, price `stopLoss`,
`pnl = position * (stopLoss - entryPrice)`,
`pnlPercent = (stopLoss - entryPrice) / entryPrice * 100`. -/
def stopLossScenario (position entryPrice stopLoss : ℚ) : Scenario :=
  { name := "Worst Case (Stop Loss)"
    price := stopLoss
    quantity := position
    totalValue := position * stopLoss
    pnl := position * (stopLoss - entryPrice)
    pnlPercent := (stopLoss - entryPrice) / entryPrice * 100
    type := "loss" }

/-- A profit scenario for target `t` carrying label index `k`, with the
analogous fields of spec step 5. -/
def profitScenario (position entryPrice : ℚ) (k : ℕ) (t : ℚ) : Scenario :=
  { name := "Target " ++ toString k
    price := t
    quantity := position
    totalValue := position * t
    pnl := position * (t - entryPrice)
    pnlPercent := (t - entryPrice) / entryPrice * 100
    type := "profit" }

/-- Amended description of the profit scenarios actually produced: one per
non-zero target strictly above the entry price, labelled by the target
position `k` in the input list (the label index advances on every input
target, kept or skipped, matching `forEach` index `idx + 1`). -/
def profitScenariosFrom (position entryPrice : ℚ) : ℕ → List ℚ → List Scenario
  | _, [] => []
  | k, t :: ts =>
    if t ≠ 0 ∧ entryPrice < t then
      profitScenario position entryPrice k t ::
        profitScenariosFrom position entryPrice (k + 1) ts
    else profitScenariosFrom position entryPrice (k + 1) ts

/-- The profit-scenario list asserted by the claim as written: one scenario
per target strictly greater than the entry price, labelled consecutively
"Target 1", "Target 2", … over the kept scenarios, in input order. -/
def claimedProfitScenarios (position entryPrice : ℚ) : ℕ → List ℚ → List Scenario
  | _, [] => []
  | k, t :: ts =>
    if entryPrice < t then
      profitScenario position entryPrice k t ::
        claimedProfitScenarios position entryPrice (k + 1) ts
    else claimedProfitScenarios position entryPrice k ts

/-- The `forEach`-with-index target loop of `calculatePnL`, re-expressed as
an index-carrying recursion: filtering the enumerated tail starting at
index `n` yields the profit scenarios labelled from position `n + 1`. -/
lemma enumFrom_filterMap_profit (position e : ℚ) (n : ℕ) (ts : List ℚ) :
    ((List.enumFrom n ts).filterMap fun p =>
      if p.2 ≠ 0 ∧ e < p.2 then
        some { name := "Target " ++ toString (p.1 + 1), price := p.2, quantity := position,
               totalValue := position * p.2, pnl := position * (p.2 - e),
               pnlPercent := (p.2 - e) / e * 100, type := "profit" }
      else none)
      = profitScenariosFrom position e (n + 1) ts := by
  induction ts generalizing n with
  | nil => simp [profitScenariosFrom]
  | cons t ts ih =>
    by_cases h : t ≠ 0 ∧ e < t <;>
      simp [List.enumFrom, profitScenariosFrom, profitScenario, h, ih]

/-- C1: contrary to the claim, `calculatePnL` does not fall back to
`calculatePositionSize` when `quantity` is not supplied: the fallback
expression reads a property of `this`, which is `undefined` for the arrow
function, so the call throws a `TypeError` instead of returning a
`valid: true` assessment with position 500. Evaluated here at the exact
inputs of the claim: capital 100000, entry 100, targets [106], stop 98,
no quantity. -/
theorem calculatePnL_throws_without_quantity :
    calculatePnL 100000 100 (some [106]) 98 none = JsOutcome.thrown JsError.typeError := by
  norm_num [calculatePnL]

/-- C2: for non-zero capital, entry, stop and a supplied non-zero quantity,
`calculatePnL` returns the `RISK_TOO_HIGH` invalid object (carrying a
message and no scenario list) exactly when
`|quantity * (entry - stop)| > capital * 0.01 * 1.1`, and otherwise a
`valid: true` result with a scenario list. -/
theorem calculatePnL_risk_gate (c e s q : ℚ) (ts : Option (List ℚ))
    (hc : c ≠ 0) (he : e ≠ 0) (hs : s ≠ 0) (hq : q ≠ 0) :
    (c * (1/100) * (11/10) < |q * (e - s)| →
      calculatePnL c e ts s (some q) = JsOutcome.value (some
        { valid := false, error := some "RISK_TOO_HIGH",
          message := some (riskMessage (|q * (e - s)|) (|q * (e - s)| / c * 100) (c * (1/100))) })) ∧
    (¬ c * (1/100) * (11/10) < |q * (e - s)| →
      ∃ r, calculatePnL c e ts s (some q) = JsOutcome.value (some r) ∧
        r.valid = true ∧ r.scenarios ≠ none) := by
  constructor
  · intro hgate
    unfold calculatePnL
    rw [if_neg (by push_neg; exact ⟨hc, he, hs⟩)]
    dsimp only
    rw [if_neg hq]
    split
    · simp_all
    · rename_i position hpos
      injection hpos with hpos
      subst hpos
      rw [if_pos hgate]
  · intro hgate
    unfold calculatePnL
    rw [if_neg (by push_neg; exact ⟨hc, he, hs⟩)]
    dsimp only
    rw [if_neg hq]
    split
    · simp_all
    · rename_i position hpos
      injection hpos with hpos
      subst hpos
      rw [if_neg hgate]
      exact ⟨_, rfl, rfl, by simp⟩

/-- C2 witness: the particular of the claim — capital 100000, entry 100,
stop 98, quantity 5000 risks 10000, which exceeds 1000 * 1.1 = 1100, so
the result is the `RISK_TOO_HIGH` invalid object. -/
theorem calculatePnL_risk_gate_witness :
    calculatePnL 100000 100 (some [106]) 98 (some 5000) = JsOutcome.value (some
      { valid := false, error := some "RISK_TOO_HIGH",
        message := some (riskMessage (|(5000:ℚ) * (100 - 98)|)
          (|(5000:ℚ) * (100 - 98)| / 100000 * 100) (100000 * (1/100))) }) :=
  (calculatePnL_risk_gate 100000 100 98 5000 (some [106])
    (by decide) (by decide) (by decide) (by decide)).1 (by norm_num)

/-- C3: `calculatePositionSize` returns 0 exactly on the degenerate inputs
(any of capital, entry, stop zero, or entry = stop) and otherwise
`floor(capital * 0.01 / |entry - stop|)`; in particular
`calculatePositionSize 100000 100 98 = 500`. -/
theorem calculatePositionSize_spec :
    (∀ c e s : ℚ, calculatePositionSize c e s =
      if c = 0 ∨ e = 0 ∨ s = 0 ∨ e = s then 0 else ⌊c * (1/100) / |e - s|⌋) ∧
    calculatePositionSize 100000 100 98 = 500 := by
  constructor
  · intro c e s
    unfold calculatePositionSize
    by_cases h1 : c = 0 ∨ e = 0 ∨ s = 0
    · rcases h1 with h | h | h <;> simp [h]
    · push_neg at h1
      by_cases h2 : e = s
      · simp [h1.1, h1.2.1, h1.2.2, h2]
      · have hne : |e - s| ≠ 0 := by simp [sub_eq_zero, h2]
        simp [h1.1, h1.2.1, h1.2.2, h2, hne]
  · norm_num [calculatePositionSize]

/-- C4 counterexample: with targets `[50, 106]` at entry 100 (only 106
qualifies), the single profit scenario produced is labelled "Target 2"
(its input position), not "Target 1" as the consecutive labelling of the
claim as written predicts. -/
theorem calculatePnL_scenarios_claimed_counterexample :
    scenariosOf (calculatePnL 100000 100 (some [50, 106]) 98 (some 400)) ≠
      some (stopLossScenario 400 100 98 :: claimedProfitScenarios 400 100 1 [50, 106]) := by
  norm_num [calculatePnL, scenariosOf, stopLossScenario, claimedProfitScenarios, profitScenario,
    List.enum, List.enumFrom, List.filterMap_cons]
  decide

/-- C4 as amended: for a supplied non-zero quantity within the tolerated
risk bound, the scenario list is exactly the stop-loss scenario followed by
one profit scenario per non-zero target strictly greater than the entry
price, in input order, each labelled "Target k" where k is the 1-based
position of the target in the input list (labels skip the positions of
skipped targets). -/
theorem calculatePnL_scenarios_structure (c e s q : ℚ) (ts : List ℚ)
    (hc : c ≠ 0) (he : e ≠ 0) (hs : s ≠ 0) (hq : q ≠ 0)
    (hgate : ¬ c * (1/100) * (11/10) < |q * (e - s)|) :
    scenariosOf (calculatePnL c e (some ts) s (some q)) =
      some (stopLossScenario q e s :: profitScenariosFrom q e 1 ts) := by
  unfold calculatePnL
  rw [if_neg (by push_neg; exact ⟨hc, he, hs⟩)]
  dsimp only
  rw [if_neg hq]
  split
  · simp_all
  · rename_i position hpos
    injection hpos with hpos
    subst hpos
    rw [if_neg hgate]
    show some _ = _
    rw [← enumFrom_filterMap_profit q e 0 ts]
    simp [stopLossScenario, List.enum]

/-- C4 witness: at capital 100000, entry 100, stop 98, quantity 400,
targets [50, 106], the amended structure theorem applies (risk 800 is
within the 1100 bound). -/
theorem calculatePnL_scenarios_structure_witness :
    scenariosOf (calculatePnL 100000 100 (some [50, 106]) 98 (some 400)) =
      some (stopLossScenario 400 100 98 :: profitScenariosFrom 400 100 1 [50, 106]) :=
  calculatePnL_scenarios_structure 100000 100 98 400 [50, 106]
    (by decide) (by decide) (by decide) (by decide) (by norm_num)

/-- C5: `assessRisk` behaves as claimed only while no target is supplied —
entry 100 / stop 90 yields exactly the above-5% warning and entry 100 /
stop 99.7 exactly the below-0.5% warning — but with a truthy first target
(here 100.5) it does not return the low-reward warning: the reward/risk
computation reads a property of `this`, which is `undefined` for the arrow
function, so the call throws a `TypeError` instead of returning. -/
theorem assessRisk_eval :
    assessRisk 100000 100 90 none = JsOutcome.value
      { warnings := ["⚠️ HIGH RISK: Stop loss is more than 5% away from entry"],
        recommendations := ["Consider tightening stop loss or reducing position size"] } ∧
    assessRisk 100000 100 (997/10) none = JsOutcome.value
      { warnings := ["⚠️ TIGHT STOP: Stop loss is too close (< 0.5%)"],
        recommendations := ["May get stopped out too easily - consider widening"] } ∧
    assessRisk 100000 100 98 (some [201/2]) = JsOutcome.thrown JsError.typeError := by
  refine ⟨?_, ?_, ?_⟩ <;> norm_num [assessRisk, abs_of_nonneg]

/-- C6 counterexample: `isMarketOpen` consults no holiday list, so on
2026-01-26 (Republic Day, a Monday, first entry of the configured holiday
list) at 10:00 IST it still returns `true`, while the claim as written
requires a configured holiday during normal hours to force a closed
result. -/
theorem isMarketOpen_ignores_holidays :
    isMarketOpen 1 10 0 = true ∧ "2026-01-26" ∈ holidays := by
  exact ⟨by decide, by decide⟩

/-- C6 as amended: `isMarketOpen` returns `true` exactly on Monday–Friday
inside the 09:15–15:30 window (so a Tuesday 10:00 gives `true` and any
Saturday time gives `false`), and the holiday forcing lives in the
Dashboard page instead: `detectMarketStatus` returns `HOLIDAY` for every
configured holiday date regardless of weekday and hour, and otherwise
`OPEN` exactly on a weekday within the window. -/
theorem marketOpen_and_holiday_amended :
    (∀ day hours minutes : ℕ, isMarketOpen day hours minutes = true ↔
      ((1 ≤ day ∧ day ≤ 5) ∧
        ((hours = 9 ∧ 15 ≤ minutes) ∨ (9 < hours ∧ hours < 15) ∨
          (hours = 15 ∧ minutes ≤ 30)))) ∧
    (∀ (d : String) (day hours minutes : ℕ), d ∈ holidays →
      detectMarketStatus d day hours minutes = DashboardStatus.HOLIDAY) ∧
    (∀ (d : String) (day hours minutes : ℕ), d ∉ holidays →
      (detectMarketStatus d day hours minutes = DashboardStatus.OPEN ↔
        ((0 < day ∧ day < 6) ∧
          ((9 < hours ∨ (hours = 9 ∧ 15 ≤ minutes)) ∧
            (hours < 15 ∨ (hours = 15 ∧ minutes ≤ 30)))))) ∧
    isMarketOpen 2 10 0 = true ∧
    (∀ hours minutes : ℕ, isMarketOpen 6 hours minutes = false) := by
  refine ⟨?_, ?_, ?_, by decide, ?_⟩
  · intro day hours minutes
    simp [isMarketOpen]
  · intro d day hours minutes hd
    unfold detectMarketStatus
    rw [if_pos (by simpa using hd)]
  · intro d day hours minutes hd
    unfold detectMarketStatus
    rw [if_neg (by simpa using hd)]
    split
    · simp_all
    · simp_all
  · intro hours minutes
    simp [isMarketOpen]

/-- C6 witness: the amended theorem applied at the configured holiday
2026-03-25 on a Wednesday at 10:00, forcing `HOLIDAY`. -/
theorem marketOpen_and_holiday_amended_witness :
    detectMarketStatus "2026-03-25" 3 10 0 = DashboardStatus.HOLIDAY :=
  marketOpen_and_holiday_amended.2.1 "2026-03-25" 3 10 0 (by decide)

/-- C7: contrary to the claim, `getMarketStatus` keeps reporting `CLOSING`
for the whole 15:00–15:59 hour — its closing test carries the always-true
disjunct `minutes < 60` — although its own label says "3:00-3:30 PM" and
`isMarketOpen` reports the market closed after 15:30. Evaluated on a
Tuesday at 15:45 and 15:59 (claim says CLOSED there), at 16:00 (CLOSED,
as claimed) and at 15:20 (CLOSING, as claimed). -/
theorem getMarketStatus_closing_overrun :
    (getMarketStatus 2 15 45).status = MarketSession.CLOSING ∧
    (getMarketStatus 2 15 59).status = MarketSession.CLOSING ∧
    (getMarketStatus 2 16 0).status = MarketSession.CLOSED ∧
    (getMarketStatus 2 15 20).status = MarketSession.CLOSING ∧
    isMarketOpen 2 15 45 = false ∧
    (getMarketStatus 2 15 45).label = "Closing Session (3:00-3:30 PM)" := by
  refine ⟨?_, ?_, ?_, ?_, ?_, ?_⟩ <;> decide

/-- C8: for positive capital and non-degenerate prices, the position sized
by `calculatePositionSize` never risks more than the 1% budget:
`position * |entry - stop| ≤ capital * 0.01` (floor never rounds up). -/
theorem positionSize_within_budget (c e s : ℚ)
    (hc : 0 < c) (he : e ≠ 0) (hs : s ≠ 0) (hne : e ≠ s) :
    (calculatePositionSize c e s : ℚ) * |e - s| ≤ c * (1/100) := by
  have hr : (0:ℚ) < |e - s| := abs_pos.mpr (sub_ne_zero.mpr hne)
  have hc0 : c ≠ 0 := ne_of_gt hc
  unfold calculatePositionSize
  rw [if_neg (by push_neg; exact ⟨hc0, he, hs⟩), if_neg (ne_of_gt hr)]
  calc ((⌊c * (1/100) / |e - s|⌋ : ℤ) : ℚ) * |e - s|
      ≤ c * (1/100) / |e - s| * |e - s| :=
        mul_le_mul_of_nonneg_right (Int.floor_le _) (le_of_lt hr)
    _ = c * (1/100) := div_mul_cancel₀ _ (ne_of_gt hr)

/-- C8 witness: at capital 100000, entry 100, stop 98 the sized position
500 risks exactly 1000 = 100000 * 0.01. -/
theorem positionSize_within_budget_witness :
    (calculatePositionSize 100000 100 98 : ℚ) * |(100:ℚ) - 98| ≤ 100000 * (1/100) :=
  positionSize_within_budget 100000 100 98 (by decide) (by decide) (by decide) (by decide)

/-- C9: `estimateWinProbability` equals the clamp to [20, 80] of 50 plus
the three additive adjustments (±15 for RSI, ±10 for trend, ±8 for volume
trend), always lands in [20, 80], and in particular evaluates to 80 at
rsi 25, INCREASING volume, UPTREND (83 clamped). -/
theorem estimateWinProbability_spec :
    (∀ (rsi : ℚ) (volumeTrend trend : String),
      estimateWinProbability rsi volumeTrend trend =
        min (max (50 + (if rsi < 30 then 15 else if 70 < rsi then -15 else 0)
            + (if trend = "UPTREND" then 10 else if trend = "DOWNTREND" then -10 else 0)
            + (if volumeTrend = "INCREASING" then 8
               else if volumeTrend = "DECREASING" then -8 else 0)) 20) 80 ∧
      20 ≤ estimateWinProbability rsi volumeTrend trend ∧
      estimateWinProbability rsi volumeTrend trend ≤ 80) ∧
    estimateWinProbability 25 "INCREASING" "UPTREND" = 80 := by
  constructor
  · intro rsi volumeTrend trend
    refine ⟨?_, ?_, ?_⟩
    · unfold estimateWinProbability
      split_ifs <;> norm_num
    · unfold estimateWinProbability
      exact le_min (le_max_right _ _) (by norm_num)
    · unfold estimateWinProbability
      exact min_le_right _ _
  · norm_num [estimateWinProbability]

/-- C10: the degenerate-input guard of `calculatePositionSize` only catches
zero; a strictly negative capital with non-degenerate prices flows through
to the floor and yields a strictly negative share quantity. -/
theorem positionSize_negative_capital (c e s : ℚ)
    (hc : c < 0) (he : e ≠ 0) (hs : s ≠ 0) (hne : e ≠ s) :
    calculatePositionSize c e s < 0 := by
  have hr : (0:ℚ) < |e - s| := abs_pos.mpr (sub_ne_zero.mpr hne)
  have hc0 : c ≠ 0 := ne_of_lt hc
  unfold calculatePositionSize
  rw [if_neg (by push_neg; exact ⟨hc0, he, hs⟩), if_neg (ne_of_gt hr)]
  have : c * (1/100) / |e - s| < 0 :=
    div_neg_of_neg_of_pos (by linarith) hr
  exact Int.floor_lt.mpr (by exact_mod_cast this)

/-- C10 witness: capital -100000, entry 100, stop 98 yields position
floor(-1000 / 2) = -500 < 0. -/
theorem positionSize_negative_capital_witness :
    calculatePositionSize (-100000) 100 98 < 0 :=
  positionSize_negative_capital (-100000) 100 98
    (by decide) (by decide) (by decide) (by decide)
